import Mathlib

/-!
Verification of the Remote Synchronization Engine of the iFood partner
dashboard backend (`backend/server.py`, `backend/ifood_client.py`).

The embedding models the MongoDB collections as in-memory lists of
documents, wall-clock time as natural-number seconds, monetary amounts as
integers, and every remote HTTP interaction as an explicit oracle argument
(the response the remote platform would return).  Document ids produced by
`uuid4()` are supplied as explicit string arguments.  All definitions are
translated from the Python source; each definition carries a pointer to the
function it embeds.
-/

namespace GamaIfood

/-! ## Remote event payload (the JSON object delivered by the polling feed) -/

/-- One event object from the remote feed, as read by `process_ifood_event`
via `event.get(...)`.  Absent keys are `none`.  The `driver` substructure is
opaque to the engine and modelled as a raw string. -/
structure IFoodEvent where
  id : Option String := none
  code : Option String := none
  fullCode : Option String := none
  orderId : Option String := none
  merchantId : Option String := none
  driver : Option String := none
  deriving DecidableEq, Repr

/-- `event.get("code") or event.get("fullCode", "").split("/")[-1]`
(server.py line 802).  The Python `or` falls through when `code` is absent
or the empty string. -/
def eventTypeOf (ev : IFoodEvent) : String :=
  let fallback := (((ev.fullCode.getD "").splitOn "/").getLast?).getD ""
  match ev.code with
  | some c => if c = "" then fallback else c
  | none => fallback

/-! ## Remote order-detail payload (consumed by `save_order_from_ifood`) -/

/-- One item of the remote order payload (`order_data["items"]`,
server.py lines 894-904). -/
structure ItemPayload where
  id : Option String := none
  name : Option String := none
  quantity : Option Nat := none
  unitPrice : Option Int := none
  totalPrice : Option Int := none
  externalCode : Option String := none
  observations : Option String := none
  garnishItems : Option String := none
  deriving DecidableEq, Repr

/-- The `total` sub-object of the remote order payload. -/
structure TotalPayload where
  subTotal : Option Int := none
  deliveryFee : Option Int := none
  benefits : Option Int := none
  orderAmount : Option Int := none
  deriving DecidableEq, Repr

/-- The remote order-detail payload as read by `save_order_from_ifood`
(server.py lines 888-946).  Substructures the engine copies without
inspecting (customer, delivery address, payments, delivery, schedule,
extraInfo) are modelled as opaque raw strings. -/
structure OrderPayload where
  id : Option String := none
  displayId : Option String := none
  orderType : Option String := none
  salesChannel : Option String := none
  orderTiming : Option String := none
  items : List ItemPayload := []
  customer : Option String := none
  deliveryAddress : Option String := none
  payments : List String := []
  delivery : Option String := none
  schedule : Option String := none
  extraInfo : Option String := none
  total : Option TotalPayload := none
  deriving DecidableEq, Repr

/-! ## Local store documents -/

/-- A document of the `db.events` collection (server.py lines 813-822). -/
structure EventDoc where
  id : String
  event_id : Option String
  event_type : String
  order_id : Option String
  merchant_id : String
  created_at : Nat
  processed : Bool
  processed_at : Option Nat := none
  payload : IFoodEvent
  deriving DecidableEq, Repr

/-- One mapped order item (server.py lines 895-904). -/
structure OrderItemDoc where
  id : Option String
  name : Option String
  quantity : Nat
  unit_price : Int
  total_price : Int
  external_code : Option String
  observations : Option String
  garnish_items : Option String
  deriving DecidableEq, Repr

/-- A document of the `db.orders` collection.  `save_order_from_ifood`
writes no lifecycle timestamps and no driver field; those keys only appear
later through `$set` updates, so they start as `none` here. -/
structure OrderDoc where
  id : String
  ifood_id : Option String
  display_id : String
  merchant_id : String
  status : String
  order_type : String
  category : String
  moment : String
  customer : Option String
  address : Option String
  items : List OrderItemDoc
  payments : List String
  delivery : Option String
  scheduling : Option String
  subtotal : Int
  delivery_fee : Int
  discount : Int
  total : Int
  observations : Option String
  created_at : Nat
  updated_at : Nat
  driver : Option String := none
  confirmed_at : Option Nat := none
  dispatched_at : Option Nat := none
  concluded_at : Option Nat := none
  cancelled_at : Option Nat := none
  deriving DecidableEq, Repr

/-- The two collections touched by the event processor. -/
structure DB where
  events : List EventDoc := []
  orders : List OrderDoc := []
  deriving DecidableEq, Repr

/-- Mongo `update_one`: rewrite the first document matching the filter,
leave the rest untouched. -/
def updateFirst (p : α → Bool) (f : α → α) : List α → List α
  | [] => []
  | x :: xs => if p x then f x :: xs else x :: updateFirst p f xs

/-- Models `db.orders.update_one` with filter `ifood_id = order_id` and a
given set of field assignments (the branches of `process_ifood_event`). -/
def ordersUpdateOne (order_id : Option String) (f : OrderDoc → OrderDoc)
    (db : DB) : DB :=
  { db with orders := updateFirst (fun o => decide (o.ifood_id = order_id)) f db.orders }

/-- Models `db.events.update_one` with filter `event_id = event_id`
(the processed-flag marking at server.py lines 882-885). -/
def eventsUpdateOne (event_id : Option String) (f : EventDoc → EventDoc)
    (db : DB) : DB :=
  { db with events := updateFirst (fun r => decide (r.event_id = event_id)) f db.events }

/-! ## `save_order_from_ifood` (server.py lines 888-949) -/

/-- Item mapping inside `save_order_from_ifood` (lines 894-904). -/
def mapItem (it : ItemPayload) : OrderItemDoc :=
  { id := it.id
    name := it.name
    quantity := it.quantity.getD 1
    unit_price := it.unitPrice.getD 0
    total_price := it.totalPrice.getD 0
    external_code := it.externalCode
    observations := it.observations
    garnish_items := it.garnishItems }

/-- The order document built by `save_order_from_ifood` (lines 909-946).
`newId` stands for the generated `uuid4()` local id and `now` for
`datetime.now(timezone.utc)`. -/
def save_order_from_ifood (d : OrderPayload) (merchant_id newId : String)
    (now : Nat) : OrderDoc :=
  { id := newId
    ifood_id := d.id
    display_id := d.displayId.getD ((d.id.getD "").take 8)
    merchant_id := merchant_id
    status := "PLACED"
    order_type := d.orderType.getD "DELIVERY"
    category := d.salesChannel.getD "FOOD"
    moment := d.orderTiming.getD "IMMEDIATE"
    customer := d.customer
    address := d.deliveryAddress
    items := d.items.map mapItem
    payments := d.payments
    delivery := d.delivery
    scheduling := d.schedule
    subtotal := ((d.total.getD {}).subTotal).getD 0
    delivery_fee := ((d.total.getD {}).deliveryFee).getD 0
    discount := ((d.total.getD {}).benefits).getD 0
    total := ((d.total.getD {}).orderAmount).getD 0
    observations := d.extraInfo
    created_at := now
    updated_at := now }

/-! ## `process_ifood_event` (server.py lines 799-885) -/

/-- Outcome of `IFoodClient.get_order_details` as seen by the event
processor: the order payload, the typed not-found dictionary
(a dict holding only the `error` and `order_id` keys, ifood_client.py
lines 703-711), or an exception that propagates to the caller. -/
inductive DetailsResult
  | ok (payload : OrderPayload)
  | notFound
  | raises
  deriving DecidableEq, Repr

/-- `process_ifood_event` (server.py lines 799-885).  `details` is the
remote order-detail oracle, `cfgMerchant` the configured merchant id
returned by `get_merchant_id()`, `docId` and `ordId` the two `uuid4()`
values that the call would generate, and `now` the wall clock.

The not-found dictionary returned by `get_order_details` carries none of
the order fields, so every `get` inside `save_order_from_ifood` takes its
default: it is passed on as the all-defaults payload. -/
def process_ifood_event (details : Option String → DetailsResult)
    (cfgMerchant docId ordId : String) (now : Nat)
    (ev : IFoodEvent) (db : DB) : DB :=
  let event_id := ev.id
  let event_type := eventTypeOf ev
  let order_id := ev.orderId
  let merchant_id := ev.merchantId.getD cfgMerchant
  match db.events.find? (fun r => decide (r.event_id = event_id)) with
  | some _ => db
  | none =>
    let rec0 : EventDoc :=
      { id := docId
        event_id := event_id
        event_type := event_type
        order_id := order_id
        merchant_id := merchant_id
        created_at := now
        processed := false
        payload := ev }
    let db1 : DB := { db with events := db.events ++ [rec0] }
    let db2 : DB :=
      if event_type = "PLACED" then
        match details order_id with
        | .raises => db1
        | .ok p =>
          { db1 with orders :=
              db1.orders ++ [save_order_from_ifood p merchant_id ordId now] }
        | .notFound =>
          { db1 with orders :=
              db1.orders ++ [save_order_from_ifood {} merchant_id ordId now] }
      else if event_type = "CONFIRMED" then
        ordersUpdateOne order_id
          (fun o => { o with status := "CONFIRMED", updated_at := now }) db1
      else if event_type = "CANCELLED" then
        ordersUpdateOne order_id
          (fun o => { o with status := "CANCELLED", cancelled_at := some now,
                             updated_at := now }) db1
      else if event_type = "DISPATCHED" then
        ordersUpdateOne order_id
          (fun o => { o with status := "DISPATCHED", dispatched_at := some now,
                             updated_at := now }) db1
      else if event_type = "CONCLUDED" then
        ordersUpdateOne order_id
          (fun o => { o with status := "CONCLUDED", concluded_at := some now,
                             updated_at := now }) db1
      else if event_type = "ASSIGN_DRIVER" then
        ordersUpdateOne order_id
          (fun o => { o with driver := some (ev.driver.getD ""),
                             updated_at := now }) db1
      else db1
    eventsUpdateOne event_id
      (fun r => { r with processed := true, processed_at := some now }) db2

/-! ## Token lifecycle manager (ifood_client.py lines 29-155)

Wall-clock instants are natural-number seconds; the 5-minute safety margin
is 300 seconds and the default token lifetime 10800 seconds, as in the
source. -/

/-- The mutable credential state of `IFoodClient` (`_access_token`,
`_token_expires_at`, `_token_expires_in`). -/
structure TokenState where
  access_token : Option String := none
  token_expires_at : Option Nat := none
  token_expires_in : Option Nat := none
  deriving DecidableEq, Repr

/-- `IFoodClient._is_token_valid` (lines 54-64).  Python truthiness makes an
empty-string token count as absent.  The check `now < expires_at - margin`
over timestamps is rendered as `now + 300 < e`. -/
def is_token_valid (now : Nat) (s : TokenState) : Bool :=
  match s.access_token, s.token_expires_at with
  | some t, some e => decide (t ≠ "") && decide (now + 300 < e)
  | _, _ => false

/-- Response of the remote token endpoint: the parsed JSON body on HTTP
success, or an HTTP error status. -/
inductive AuthNet
  | ok (accessToken : Option String) (expiresIn : Option Nat)
  | httpError (code : Nat)
  deriving DecidableEq, Repr

/-- Result alternatives of one `authenticate` call: a returned token
dictionary (with its `cached` flag) or a raised exception. -/
inductive AuthResult
  | ok (cached : Bool)
  | error (msg : String)
  deriving DecidableEq, Repr

/-- Full outcome of one `authenticate` call: its result, the credential
state it leaves behind, and how many token-endpoint HTTP calls it made. -/
structure AuthOutcome where
  result : AuthResult
  state : TokenState
  networkCalls : Nat
  deriving DecidableEq, Repr

/-- `IFoodClient.authenticate` (lines 66-143).  `hasCreds` models the
presence of `IFOOD_CLIENT_ID`/`IFOOD_CLIENT_SECRET`; `net` is the token
endpoint oracle.  A valid token is reused unless `force` is set; on an HTTP
error the access token and expiry are cleared (`_token_expires_in` is left
untouched, as in the source) and the error is raised. -/
def authenticate (hasCreds : Bool) (net : AuthNet) (now : Nat) (force : Bool)
    (s : TokenState) : AuthOutcome :=
  if ¬hasCreds then
    { result := .error "IFOOD_CLIENT_ID e IFOOD_CLIENT_SECRET obrigatorios"
      state := s, networkCalls := 0 }
  else if !force && is_token_valid now s then
    { result := .ok true, state := s, networkCalls := 0 }
  else
    match net with
    | .ok tok ein =>
      let e := ein.getD 10800
      { result := .ok false
        state := { access_token := tok, token_expires_at := some (now + e),
                   token_expires_in := some e }
        networkCalls := 1 }
    | .httpError c =>
      { result := .error ("Erro de autenticacao iFood: " ++ toString c)
        state := { s with access_token := none, token_expires_at := none }
        networkCalls := 1 }

/-- Outcome of `IFoodClient._get_headers` (lines 145-155): the
`authenticate` outcome plus, on success, the produced Authorization header
value. -/
structure HeadersOutcome where
  auth : AuthOutcome
  authorization : Option String
  deriving DecidableEq, Repr

/-- `IFoodClient._get_headers` (lines 145-155): a plain `authenticate()`
call followed by header construction from the stored token. -/
def get_headers (hasCreds : Bool) (net : AuthNet) (now : Nat)
    (s : TokenState) : HeadersOutcome :=
  let a := authenticate hasCreds net now false s
  match a.result with
  | .ok _ => { auth := a, authorization := some ("Bearer " ++ a.state.access_token.getD "") }
  | .error _ => { auth := a, authorization := none }

/-! ## Response handling and the gateway operations -/

/-- An HTTP response with its parsed body. -/
structure Resp (α : Type) where
  status : Nat
  body : α
  deriving DecidableEq, Repr

/-- Result alternatives of `IFoodClient._handle_response` (lines 157-178):
the retry signal (`None` in the source, returned for a 401 when
`retry_auth` is set, right after the forced re-authentication that the
model accounts at the call site), a raised error (403 or
`raise_for_status`), the 204 no-content dictionary (`value none`, which is
not a list), or the JSON body. -/
inductive Handled (α : Type)
  | retrySignal
  | raised (msg : String)
  | value (v : Option α)
  deriving DecidableEq, Repr

/-- `IFoodClient._handle_response` (lines 157-178), minus the forced
re-authentication side effect, which the callers below perform when they
see the retry signal. -/
def handle_response (retryAuth : Bool) (r : Resp α) : Handled α :=
  if r.status = 401 ∧ retryAuth then .retrySignal
  else if r.status = 403 then .raised "Acesso proibido (403)"
  else if 400 ≤ r.status then .raised ("http error " ++ toString r.status)
  else if r.status = 204 then .value none
  else .value (some r.body)

/-- Outcome of one gateway operation: its result or raised error, the
number of HTTP calls of the operation itself, the number of token-endpoint
calls, and the final credential state. -/
structure GWOutcome (α : Type) where
  result : Except String α
  opCalls : Nat
  tokenCalls : Nat
  state : TokenState
  deriving Repr

/-- `IFoodClient.get_merchants` (lines 202-235).  `r1` and `r2` are the
responses the merchants endpoint returns to the first call and to the
retry; the body is the parsed merchant list (opaque strings).  A non-list
result (the 204 dictionary) is replaced by `[]` as in the source. -/
def get_merchants (hasCreds : Bool) (net : AuthNet) (now : Nat)
    (s : TokenState) (r1 r2 : Resp (List String)) : GWOutcome (List String) :=
  let a1 := authenticate hasCreds net now false s
  match a1.result with
  | .error m => { result := .error m, opCalls := 0, tokenCalls := a1.networkCalls, state := a1.state }
  | .ok _ =>
    match handle_response true r1 with
    | .retrySignal =>
      let a2 := authenticate hasCreds net now true a1.state
      match a2.result with
      | .error m =>
        { result := .error m, opCalls := 1
          tokenCalls := a1.networkCalls + a2.networkCalls, state := a2.state }
      | .ok _ =>
        let a3 := authenticate hasCreds net now false a2.state
        match a3.result with
        | .error m =>
          { result := .error m, opCalls := 1
            tokenCalls := a1.networkCalls + a2.networkCalls + a3.networkCalls
            state := a3.state }
        | .ok _ =>
          match handle_response false r2 with
          | .retrySignal =>
            -- unreachable: `handle_response false` never returns the signal
            { result := .error "unreachable", opCalls := 2
              tokenCalls := a1.networkCalls + a2.networkCalls + a3.networkCalls
              state := a3.state }
          | .raised m =>
            { result := .error m, opCalls := 2
              tokenCalls := a1.networkCalls + a2.networkCalls + a3.networkCalls
              state := a3.state }
          | .value v =>
            { result := .ok (v.getD []), opCalls := 2
              tokenCalls := a1.networkCalls + a2.networkCalls + a3.networkCalls
              state := a3.state }
    | .raised m =>
      { result := .error m, opCalls := 1, tokenCalls := a1.networkCalls, state := a1.state }
    | .value v =>
      { result := .ok (v.getD []), opCalls := 1, tokenCalls := a1.networkCalls, state := a1.state }

/-- The inline 401-retry block that every per-order operation of
ifood_client.py repeats verbatim (for example `confirm_order`, lines
754-766): acquire headers, issue the call, and on a 401 force one
re-authentication, reacquire headers and reissue the call once.  Returns
the response the rest of the operation body then inspects. -/
def request_with_auth_retry (hasCreds : Bool) (net : AuthNet) (now : Nat)
    (s : TokenState) (r1 r2 : Resp α) : GWOutcome (Resp α) :=
  let a1 := authenticate hasCreds net now false s
  match a1.result with
  | .error m => { result := .error m, opCalls := 0, tokenCalls := a1.networkCalls, state := a1.state }
  | .ok _ =>
    if r1.status = 401 then
      let a2 := authenticate hasCreds net now true a1.state
      match a2.result with
      | .error m =>
        { result := .error m, opCalls := 1
          tokenCalls := a1.networkCalls + a2.networkCalls, state := a2.state }
      | .ok _ =>
        let a3 := authenticate hasCreds net now false a2.state
        match a3.result with
        | .error m =>
          { result := .error m, opCalls := 1
            tokenCalls := a1.networkCalls + a2.networkCalls + a3.networkCalls
            state := a3.state }
        | .ok _ =>
          { result := .ok r2, opCalls := 2
            tokenCalls := a1.networkCalls + a2.networkCalls + a3.networkCalls
            state := a3.state }
    else
      { result := .ok r1, opCalls := 1, tokenCalls := a1.networkCalls, state := a1.state }

/-- Result of `IFoodClient.get_order_details`: the order payload or the
typed not-found dictionary (lines 703-711). -/
inductive DetailsOut
  | payload (p : OrderPayload)
  | notFound (order_id : String)
  deriving DecidableEq, Repr

/-- `IFoodClient.get_order_details` (lines 681-711).  A 404, whether seen
directly or through the raised status error, becomes the typed not-found
result; any other non-success status raises. -/
def client_get_order_details (hasCreds : Bool) (net : AuthNet) (now : Nat)
    (s : TokenState) (order_id : String) (r1 r2 : Resp OrderPayload) :
    GWOutcome DetailsOut :=
  let q := request_with_auth_retry hasCreds net now s r1 r2
  match q.result with
  | .error m =>
    { result := .error m, opCalls := q.opCalls, tokenCalls := q.tokenCalls, state := q.state }
  | .ok resp =>
    if resp.status = 404 then
      { result := .ok (.notFound order_id)
        opCalls := q.opCalls, tokenCalls := q.tokenCalls, state := q.state }
    else if 400 ≤ resp.status then
      { result := .error ("http error " ++ toString resp.status)
        opCalls := q.opCalls, tokenCalls := q.tokenCalls, state := q.state }
    else
      { result := .ok (.payload resp.body)
        opCalls := q.opCalls, tokenCalls := q.tokenCalls, state := q.state }

/-- Result of `IFoodClient.get_order_tracking`: the tracking payload
(opaque) or the typed not-found dictionary (lines 943-951). -/
inductive TrackingOut
  | payload (raw : String)
  | notFound (order_id : String)
  deriving DecidableEq, Repr

/-- `IFoodClient.get_order_tracking` (lines 921-951): same shape as
`get_order_details`, with an opaque body. -/
def client_get_order_tracking (hasCreds : Bool) (net : AuthNet) (now : Nat)
    (s : TokenState) (order_id : String) (r1 r2 : Resp String) :
    GWOutcome TrackingOut :=
  let q := request_with_auth_retry hasCreds net now s r1 r2
  match q.result with
  | .error m =>
    { result := .error m, opCalls := q.opCalls, tokenCalls := q.tokenCalls, state := q.state }
  | .ok resp =>
    if resp.status = 404 then
      { result := .ok (.notFound order_id)
        opCalls := q.opCalls, tokenCalls := q.tokenCalls, state := q.state }
    else if 400 ≤ resp.status then
      { result := .error ("http error " ++ toString resp.status)
        opCalls := q.opCalls, tokenCalls := q.tokenCalls, state := q.state }
    else
      { result := .ok (.payload resp.body)
        opCalls := q.opCalls, tokenCalls := q.tokenCalls, state := q.state }

/-- Result of `IFoodClient.confirm_order` (lines 745-775): the 202
asynchronous pending dictionary or the synchronous confirmed dictionary. -/
inductive ConfirmOut
  | pending (order_id : String)
  | confirmed (order_id : String)
  deriving DecidableEq, Repr

/-- `IFoodClient.confirm_order` (lines 745-775).  After the 401-retry
block: a 202 yields the pending result; every other non-success status,
404 included, goes through `raise_for_status` and the surrounding handler
re-raises it. -/
def client_confirm_order (hasCreds : Bool) (net : AuthNet) (now : Nat)
    (s : TokenState) (order_id : String) (r1 r2 : Resp Unit) :
    GWOutcome ConfirmOut :=
  let q := request_with_auth_retry hasCreds net now s r1 r2
  match q.result with
  | .error m =>
    { result := .error m, opCalls := q.opCalls, tokenCalls := q.tokenCalls, state := q.state }
  | .ok resp =>
    if resp.status = 202 then
      { result := .ok (.pending order_id)
        opCalls := q.opCalls, tokenCalls := q.tokenCalls, state := q.state }
    else if 400 ≤ resp.status then
      { result := .error ("http error " ++ toString resp.status)
        opCalls := q.opCalls, tokenCalls := q.tokenCalls, state := q.state }
    else
      { result := .ok (.confirmed order_id)
        opCalls := q.opCalls, tokenCalls := q.tokenCalls, state := q.state }

/-- `IFoodClient.poll_events` (lines 600-649).  A 204 is checked before
anything else and yields the empty event list; a 401 forces one
re-authentication and one retry whose response is again first checked for
204; every remaining non-success status raises. -/
def poll_events (hasCreds : Bool) (net : AuthNet) (now : Nat) (s : TokenState)
    (r1 r2 : Resp (List IFoodEvent)) : GWOutcome (List IFoodEvent) :=
  let a1 := authenticate hasCreds net now false s
  match a1.result with
  | .error m => { result := .error m, opCalls := 0, tokenCalls := a1.networkCalls, state := a1.state }
  | .ok _ =>
    if r1.status = 204 then
      { result := .ok [], opCalls := 1, tokenCalls := a1.networkCalls, state := a1.state }
    else if r1.status = 401 then
      let a2 := authenticate hasCreds net now true a1.state
      match a2.result with
      | .error m =>
        { result := .error m, opCalls := 1
          tokenCalls := a1.networkCalls + a2.networkCalls, state := a2.state }
      | .ok _ =>
        let a3 := authenticate hasCreds net now false a2.state
        match a3.result with
        | .error m =>
          { result := .error m, opCalls := 1
            tokenCalls := a1.networkCalls + a2.networkCalls + a3.networkCalls
            state := a3.state }
        | .ok _ =>
          if r2.status = 204 then
            { result := .ok [], opCalls := 2
              tokenCalls := a1.networkCalls + a2.networkCalls + a3.networkCalls
              state := a3.state }
          else if 400 ≤ r2.status then
            { result := .error ("http error " ++ toString r2.status), opCalls := 2
              tokenCalls := a1.networkCalls + a2.networkCalls + a3.networkCalls
              state := a3.state }
          else
            { result := .ok r2.body, opCalls := 2
              tokenCalls := a1.networkCalls + a2.networkCalls + a3.networkCalls
              state := a3.state }
    else if 400 ≤ r1.status then
      { result := .error ("http error " ++ toString r1.status)
        opCalls := 1, tokenCalls := a1.networkCalls, state := a1.state }
    else
      { result := .ok r1.body, opCalls := 1, tokenCalls := a1.networkCalls, state := a1.state }

/-! ## One poll cycle of `polling_loop` (server.py lines 957-1006)

The loop body wraps the fetch, the per-event processing and the
acknowledgment in a single `try`; any exception escaping any of them jumps
to the `except` branch, which records the error in the polling-status
document.  `process_ifood_event` contains network work only in its PLACED
branch, where it is caught locally; an exception escaping it therefore
stands for a failure of one of its store operations, injected here through
the `storeFails` oracle (the failing call is modelled as leaving the store
unchanged). -/

/-- The polling-status document (collection `db.polling_status`). -/
structure PollingStatusDoc where
  merchant_id : String
  last_poll_at : Option Nat := none
  events_received : Nat := 0
  errors_count : Nat := 0
  last_error : Option String := none
  is_active : Bool := true
  connection_status : String := "connected"
  deriving DecidableEq, Repr

/-- The two `db.polling_status.update_one` shapes of `polling_loop`:
the success update (lines 974-985) sets the poll time and event count and
clears the error fields; the failure update (lines 993-1003) records the
error and increments the error counter, touching nothing else. -/
inductive CycleStatus
  | success (events_received : Nat)
  | failure (msg : String)
  deriving DecidableEq, Repr

/-- Apply a cycle outcome to the polling-status document. -/
def applyCycleStatus (now : Nat) : CycleStatus → PollingStatusDoc → PollingStatusDoc
  | .success n, d =>
    { d with last_poll_at := some now, events_received := n, errors_count := 0,
             last_error := none, is_active := true, connection_status := "connected" }
  | .failure m, d =>
    { d with last_error := some m, connection_status := "error",
             errors_count := d.errors_count + 1 }

/-- The `for event in events: await process_ifood_event(event)` loop of
`polling_loop` (lines 964-965) under the store-failure oracle.  Returns the
store after the loop, the number of events whose processing ran to
completion, and whether an exception aborted the loop.  The generated
document ids are derived from the running index `i`. -/
def runEvents (storeFails : IFoodEvent → Bool)
    (details : Option String → DetailsResult) (cfgMerchant : String)
    (now : Nat) : List IFoodEvent → Nat → DB → DB × Nat × Bool
  | [], _, db => (db, 0, false)
  | ev :: rest, i, db =>
    if storeFails ev then (db, 0, true)
    else
      let db1 := process_ifood_event details cfgMerchant
        ("evdoc" ++ toString i) ("orddoc" ++ toString i) now ev db
      let r := runEvents storeFails details cfgMerchant now rest (i + 1) db1
      (r.1, r.2.1 + 1, r.2.2)

/-- `[e.get("id") for e in events if e.get("id")]` (line 969): Python
truthiness drops both missing and empty-string ids. -/
def ackIdsOf (evs : List IFoodEvent) : List String :=
  evs.filterMap (fun e => match e.id with
    | some s => if s = "" then none else some s
    | none => none)

/-- Everything one poll cycle leaves behind. -/
structure CycleOutcome where
  db : DB
  completed : Nat
  ackAttempted : Bool
  ackIds : List String
  status : PollingStatusDoc
  deriving DecidableEq, Repr

/-- One iteration of `polling_loop` (lines 957-1003) given the outcome of
the fetch (`fetch` is the result of `poll_events`, `.error` when it
raised), the store-failure oracle for the per-event processing, and whether
the acknowledgment call itself raises (`ackFails`). -/
def polling_cycle (storeFails : IFoodEvent → Bool)
    (details : Option String → DetailsResult) (cfgMerchant : String)
    (now : Nat) (ackFails : Bool) (fetch : Except String (List IFoodEvent))
    (db : DB) (st : PollingStatusDoc) : CycleOutcome :=
  match fetch with
  | .error m =>
    { db := db, completed := 0, ackAttempted := false, ackIds := []
      status := applyCycleStatus now (.failure m) st }
  | .ok evs =>
    let r := runEvents storeFails details cfgMerchant now evs 0 db
    if r.2.2 then
      { db := r.1, completed := r.2.1, ackAttempted := false, ackIds := []
        status := applyCycleStatus now (.failure "event processing raised") st }
    else
      let ids := ackIdsOf evs
      if ids = [] then
        { db := r.1, completed := r.2.1, ackAttempted := false, ackIds := []
          status := applyCycleStatus now (.success evs.length) st }
      else if ackFails then
        { db := r.1, completed := r.2.1, ackAttempted := true, ackIds := ids
          status := applyCycleStatus now (.failure "acknowledgment raised") st }
      else
        { db := r.1, completed := r.2.1, ackAttempted := true, ackIds := ids
          status := applyCycleStatus now (.success evs.length) st }

/-! ## Two concurrent callers of `authenticate` (for the single-flight
question, ifood_client.py lines 66-143)

`authenticate` holds no lock.  Under asyncio, execution is atomic between
suspension points; the only suspension inside `authenticate` is the token
request itself (`client.post`, line 105).  A caller therefore (a) checks
`_is_token_valid` and, when the check fails, issues the token request and
suspends; (b) on resumption stores the response into the shared state.
The model runs two such callers over the shared `TokenState` under an
arbitrary interleaving and counts token-endpoint calls. -/

/-- Position of one caller inside `authenticate`. -/
inductive CallerPhase
  | start
  | waiting
  | finished
  deriving DecidableEq, Repr

/-- One atomic step of one caller (a plain, non-forced `authenticate`). -/
def stepCaller (net : AuthNet) (now : Nat) (ph : CallerPhase)
    (s : TokenState) : CallerPhase × TokenState × Nat :=
  match ph with
  | .start =>
    if is_token_valid now s then (.finished, s, 0)
    else (.waiting, s, 1)
  | .waiting =>
    match net with
    | .ok tok ein =>
      let e := ein.getD 10800
      (.finished,
       { access_token := tok, token_expires_at := some (now + e),
         token_expires_in := some e }, 0)
    | .httpError _ =>
      (.finished, { s with access_token := none, token_expires_at := none }, 0)
  | .finished => (.finished, s, 0)

/-- Shared state of the two callers plus the token-endpoint call count. -/
structure TwoCallers where
  shared : TokenState
  caller1 : CallerPhase := .start
  caller2 : CallerPhase := .start
  tokenCalls : Nat := 0
  deriving DecidableEq, Repr

/-- Run a schedule: `true` steps caller 1, `false` steps caller 2. -/
def runSched (net : AuthNet) (now : Nat) : List Bool → TwoCallers → TwoCallers
  | [], c => c
  | pick :: rest, c =>
    let c1 :=
      if pick then
        let r := stepCaller net now c.caller1 c.shared
        { c with caller1 := r.1, shared := r.2.1, tokenCalls := c.tokenCalls + r.2.2 }
      else
        let r := stepCaller net now c.caller2 c.shared
        { c with caller2 := r.1, shared := r.2.1, tokenCalls := c.tokenCalls + r.2.2 }
    runSched net now rest c1

/-! ## Concrete scenario material -/

/-- Remote detail oracle: order `O1` exists remotely with remote id `O1`. -/
def detailsO1 : Option String → DetailsResult :=
  fun oid => if oid = some "O1" then .ok { id := some "O1" } else .notFound

/-- The PLACED event `E1` for order `O1` of the C1 scenario. -/
def evPlacedE1 : IFoodEvent :=
  { id := some "E1", code := some "PLACED", orderId := some "O1" }

/-- A store that already holds an event record for id `E1`. -/
def dbWithE1 : DB :=
  { events := [{ id := "d0", event_id := some "E1", event_type := "PLACED",
                 order_id := some "O1", merchant_id := "M1", created_at := 0,
                 processed := true, processed_at := some 0, payload := evPlacedE1 }]
    orders := [] }

/-! ## Claims -/

/-- C1: event application is idempotent by deduplication.  Whenever the
event id already has a record in the events collection,
`process_ifood_event` returns the store unchanged (no side effect on either
collection); and in the concrete scenario a PLACED event `E1` for order
`O1` followed by a duplicate with the same id creates exactly one order
`O1` and leaves exactly one event record for `E1`. -/
theorem duplicate_event_noop :
    (∀ (details : Option String → DetailsResult) (cfg dI oI : String)
        (now : Nat) (ev : IFoodEvent) (db : DB),
        (∃ r ∈ db.events, r.event_id = ev.id) →
        process_ifood_event details cfg dI oI now ev db = db) ∧
    (((process_ifood_event detailsO1 "M1" "d1" "L1" 1 evPlacedE1
        (process_ifood_event detailsO1 "M1" "d0" "L0" 0 evPlacedE1
          { events := [], orders := [] })).orders.filter
            (fun o => decide (o.ifood_id = some "O1"))).length = 1 ∧
     ((process_ifood_event detailsO1 "M1" "d1" "L1" 1 evPlacedE1
        (process_ifood_event detailsO1 "M1" "d0" "L0" 0 evPlacedE1
          { events := [], orders := [] })).events.filter
            (fun r => decide (r.event_id = some "E1"))).length = 1) := by
  constructor
  · intro details cfg dI oI now ev db h
    have hs : (db.events.find? (fun r => decide (r.event_id = ev.id))).isSome := by
      rw [List.find?_isSome]
      obtain ⟨r, hmem, hid⟩ := h
      exact ⟨r, hmem, by simp [hid]⟩
    obtain ⟨r, hr⟩ := Option.isSome_iff_exists.mp hs
    simp only [process_ifood_event, hr]
  · constructor <;> decide

/-- Witness for C1: applying `process_ifood_event` to a store that already
records event id `E1` leaves the store unchanged. -/
theorem duplicate_event_noop_witness :
    process_ifood_event detailsO1 "M1" "d9" "L9" 7 evPlacedE1 dbWithE1 = dbWithE1 :=
  duplicate_event_noop.1 detailsO1 "M1" "d9" "L9" 7 evPlacedE1 dbWithE1 (by decide)

/-! ## Helper lemmas about `process_ifood_event` -/

theorem updateFirst_no_match (p : α → Bool) (f : α → α) :
    ∀ l : List α, (∀ x ∈ l, p x = false) → updateFirst p f l = l := by
  intro l h
  induction l with
  | nil => rfl
  | cons x xs ih =>
    simp only [updateFirst]
    rw [h x (List.mem_cons_self x xs)]
    simp only [Bool.false_eq_true, if_false]
    rw [ih (fun y hy => h y (List.mem_cons_of_mem x hy))]

/-- For a fresh CONFIRMED event, the orders collection becomes the
unconditional first-match overwrite of the status field (no timestamp
field is written). -/
theorem processOrdersConfirmed (details : Option String → DetailsResult)
    (cfg dI oI : String) (now : Nat) (ev : IFoodEvent) (db : DB)
    (hfresh : db.events.find? (fun r => decide (r.event_id = ev.id)) = none)
    (htype : eventTypeOf ev = "CONFIRMED") :
    (process_ifood_event details cfg dI oI now ev db).orders =
      updateFirst (fun o => decide (o.ifood_id = ev.orderId))
        (fun o => { o with status := "CONFIRMED", updated_at := now }) db.orders := by
  simp [process_ifood_event, hfresh, htype, eventsUpdateOne, ordersUpdateOne]

/-- For a fresh DISPATCHED event, the orders collection becomes the
first-match overwrite of status and dispatch timestamp. -/
theorem processOrdersDispatched (details : Option String → DetailsResult)
    (cfg dI oI : String) (now : Nat) (ev : IFoodEvent) (db : DB)
    (hfresh : db.events.find? (fun r => decide (r.event_id = ev.id)) = none)
    (htype : eventTypeOf ev = "DISPATCHED") :
    (process_ifood_event details cfg dI oI now ev db).orders =
      updateFirst (fun o => decide (o.ifood_id = ev.orderId))
        (fun o => { o with status := "DISPATCHED", dispatched_at := some now,
                           updated_at := now }) db.orders := by
  simp [process_ifood_event, hfresh, htype, eventsUpdateOne, ordersUpdateOne]

/-- For a fresh CONCLUDED event, the orders collection becomes the
first-match overwrite of status and conclusion timestamp. -/
theorem processOrdersConcluded (details : Option String → DetailsResult)
    (cfg dI oI : String) (now : Nat) (ev : IFoodEvent) (db : DB)
    (hfresh : db.events.find? (fun r => decide (r.event_id = ev.id)) = none)
    (htype : eventTypeOf ev = "CONCLUDED") :
    (process_ifood_event details cfg dI oI now ev db).orders =
      updateFirst (fun o => decide (o.ifood_id = ev.orderId))
        (fun o => { o with status := "CONCLUDED", concluded_at := some now,
                           updated_at := now }) db.orders := by
  simp [process_ifood_event, hfresh, htype, eventsUpdateOne, ordersUpdateOne]

/-! ## C2: the status machine is not monotonic -/

/-- PLACED event for order `O1` (distinct event id `D1`). -/
def c2Placed : IFoodEvent :=
  { id := some "D1", code := some "PLACED", orderId := some "O1" }

/-- DISPATCHED event `D2` for order `O1`. -/
def c2Dispatched : IFoodEvent :=
  { id := some "D2", code := some "DISPATCHED", orderId := some "O1" }

/-- CONFIRMED event `D3` for order `O1`, arriving after the dispatch. -/
def c2Confirmed : IFoodEvent :=
  { id := some "D3", code := some "CONFIRMED", orderId := some "O1" }

/-- Store after PLACED `D1` then DISPATCHED `D2`. -/
def c2AfterDispatch : DB :=
  process_ifood_event detailsO1 "M1" "cd1" "cl1" 1 c2Dispatched
    (process_ifood_event detailsO1 "M1" "cd0" "cl0" 0 c2Placed {})

/-- Store after the late CONFIRMED `D3` hits the dispatched order. -/
def c2AfterConfirm : DB :=
  process_ifood_event detailsO1 "M1" "cd2" "cl2" 2 c2Confirmed c2AfterDispatch

/-- Counterexample to C2: the event sequence PLACED, DISPATCHED, CONFIRMED
(three distinct event ids, same order `O1`) drives the status of `O1` from
DISPATCHED back to CONFIRMED — a backward transition the claim asserts no
input sequence can produce. -/
theorem backward_transition_exists :
    (c2AfterDispatch.orders.map (fun o => o.status)) = ["DISPATCHED"] ∧
    (c2AfterConfirm.orders.map (fun o => o.status)) = ["CONFIRMED"] := by
  constructor <;> decide

/-- C2 (amended): status transitions are not monotonic.  A fresh CONFIRMED
event overwrites the status of the first order matching its remote order id
unconditionally, whatever the current status (DISPATCHED included) — the
processor applies the fields each event describes instead of rejecting
unexpected transitions. -/
theorem status_overwritten_unconditionally
    (details : Option String → DetailsResult) (cfg dI oI : String)
    (now : Nat) (ev : IFoodEvent) (db : DB) (o : OrderDoc)
    (hfresh : db.events.find? (fun r => decide (r.event_id = ev.id)) = none)
    (htype : eventTypeOf ev = "CONFIRMED")
    (horders : db.orders = [o])
    (hmatch : o.ifood_id = ev.orderId) :
    (process_ifood_event details cfg dI oI now ev db).orders.map (fun x => x.status) =
      ["CONFIRMED"] := by
  rw [processOrdersConfirmed details cfg dI oI now ev db hfresh htype, horders]
  simp [updateFirst, hmatch]

/-- Witness for the amended C2: a single DISPATCHED order for `O1` is moved
back to CONFIRMED by the late CONFIRMED event `D3`. -/
theorem status_overwritten_unconditionally_witness :
    (process_ifood_event detailsO1 "M1" "cw" "lw" 9 c2Confirmed
      { events := [],
        orders := [{ save_order_from_ifood { id := some "O1" } "M1" "L1" 0 with
                     status := "DISPATCHED" }] }).orders.map (fun x => x.status) =
      ["CONFIRMED"] :=
  status_overwritten_unconditionally detailsO1 "M1" "cw" "lw" 9 c2Confirmed
    { events := [],
      orders := [{ save_order_from_ifood { id := some "O1" } "M1" "L1" 0 with
                   status := "DISPATCHED" }] }
    ({ save_order_from_ifood { id := some "O1" } "M1" "L1" 0 with
       status := "DISPATCHED" })
    (by decide) (by decide) rfl (by decide)

/-! ## C3: lifecycle timestamps on update events -/

/-- An existing local order for `O1` in state PLACED (materialized exactly
as `save_order_from_ifood` would). -/
def dbPlacedO1 : DB :=
  { events := [], orders := [save_order_from_ifood { id := some "O1" } "M1" "L1" 0] }

/-- CONFIRMED event `E2` for order `O1`. -/
def c3Confirmed : IFoodEvent :=
  { id := some "E2", code := some "CONFIRMED", orderId := some "O1" }

/-- DISPATCHED event `E3` for order `O1`. -/
def c3Dispatched : IFoodEvent :=
  { id := some "E3", code := some "DISPATCHED", orderId := some "O1" }

/-- Store after `E2` (at time 10) then `E3` (at time 20) hit `O1`. -/
def c3After : DB :=
  process_ifood_event detailsO1 "M1" "e3" "l3" 20 c3Dispatched
    (process_ifood_event detailsO1 "M1" "e2" "l2" 10 c3Confirmed dbPlacedO1)

/-- Counterexample to C3: after `E2` (CONFIRMED) then `E3` (DISPATCHED) the
order ends in status DISPATCHED with `dispatched_at` populated but
`confirmed_at` still absent — the CONFIRMED branch of
`process_ifood_event` writes only the status and `updated_at` fields, so
the claimed scenario outcome (both timestamps populated) is false. -/
theorem confirmed_timestamp_never_set :
    c3After.orders.map (fun o => (o.status, o.confirmed_at, o.dispatched_at)) =
      [("DISPATCHED", none, some 20)] := by
  decide

/-- C3 (amended): a fresh DISPATCHED (resp. CONCLUDED) event sets the
status and the corresponding timestamp on the first matching order, while a
fresh CONFIRMED event sets only the status — `confirmed_at` is not written
by the event path; and when no local order matches the remote order id the
orders collection is untouched. -/
theorem update_events_set_fields
    (details : Option String → DetailsResult) (cfg dI oI : String)
    (now : Nat) (ev : IFoodEvent) (db : DB)
    (hfresh : db.events.find? (fun r => decide (r.event_id = ev.id)) = none) :
    (eventTypeOf ev = "CONFIRMED" →
      (process_ifood_event details cfg dI oI now ev db).orders =
        updateFirst (fun o => decide (o.ifood_id = ev.orderId))
          (fun o => { o with status := "CONFIRMED", updated_at := now }) db.orders) ∧
    (eventTypeOf ev = "DISPATCHED" →
      (process_ifood_event details cfg dI oI now ev db).orders =
        updateFirst (fun o => decide (o.ifood_id = ev.orderId))
          (fun o => { o with status := "DISPATCHED", dispatched_at := some now,
                             updated_at := now }) db.orders) ∧
    (eventTypeOf ev = "CONCLUDED" →
      (process_ifood_event details cfg dI oI now ev db).orders =
        updateFirst (fun o => decide (o.ifood_id = ev.orderId))
          (fun o => { o with status := "CONCLUDED", concluded_at := some now,
                             updated_at := now }) db.orders) ∧
    ((∀ o ∈ db.orders, o.ifood_id ≠ ev.orderId) →
     (eventTypeOf ev = "CONFIRMED" ∨ eventTypeOf ev = "DISPATCHED" ∨
      eventTypeOf ev = "CONCLUDED") →
      (process_ifood_event details cfg dI oI now ev db).orders = db.orders) := by
  refine ⟨fun h => processOrdersConfirmed details cfg dI oI now ev db hfresh h,
          fun h => processOrdersDispatched details cfg dI oI now ev db hfresh h,
          fun h => processOrdersConcluded details cfg dI oI now ev db hfresh h,
          fun hno htype => ?_⟩
  have hfalse : ∀ o ∈ db.orders,
      (fun o : OrderDoc => decide (o.ifood_id = ev.orderId)) o = false := by
    intro o ho
    simpa using hno o ho
  rcases htype with h | h | h
  · rw [processOrdersConfirmed details cfg dI oI now ev db hfresh h]
    exact updateFirst_no_match _ _ db.orders hfalse
  · rw [processOrdersDispatched details cfg dI oI now ev db hfresh h]
    exact updateFirst_no_match _ _ db.orders hfalse
  · rw [processOrdersConcluded details cfg dI oI now ev db hfresh h]
    exact updateFirst_no_match _ _ db.orders hfalse

/-- Witness for the amended C3: the DISPATCHED event `E3` on the store
holding order `O1` rewrites the orders collection to the dispatched form. -/
theorem update_events_set_fields_witness :
    (process_ifood_event detailsO1 "M1" "e3" "l3" 20 c3Dispatched dbPlacedO1).orders =
      updateFirst (fun o => decide (o.ifood_id = c3Dispatched.orderId))
        (fun o => { o with status := "DISPATCHED", dispatched_at := some 20,
                           updated_at := 20 }) dbPlacedO1.orders :=
  (update_events_set_fields detailsO1 "M1" "e3" "l3" 20 c3Dispatched dbPlacedO1
    (by decide)).2.1 (by decide)

/-! ## C10: PLACED with a not-found detail lookup still creates an order -/

/-- A PLACED event whose remote order cannot be fetched. -/
def evPlacedNF : IFoodEvent :=
  { id := some "N1", code := some "PLACED", orderId := some "OX" }

/-- C10: when the detail lookup for a PLACED event yields the typed
not-found dictionary, `process_ifood_event` still inserts a new order
document built by `save_order_from_ifood` from that field-less dictionary:
remote id absent, empty display id, no items, all totals zero, status
PLACED. -/
theorem placed_not_found_creates_stub
    (details : Option String → DetailsResult) (cfg dI oI : String)
    (now : Nat) (ev : IFoodEvent) (db : DB)
    (hfresh : db.events.find? (fun r => decide (r.event_id = ev.id)) = none)
    (htype : eventTypeOf ev = "PLACED")
    (hnf : details ev.orderId = .notFound) :
    (process_ifood_event details cfg dI oI now ev db).orders =
      db.orders ++ [save_order_from_ifood {} (ev.merchantId.getD cfg) oI now] ∧
    (∀ (m i : String) (n : Nat),
      (save_order_from_ifood {} m i n).ifood_id = none ∧
      (save_order_from_ifood {} m i n).display_id = "" ∧
      (save_order_from_ifood {} m i n).items = [] ∧
      (save_order_from_ifood {} m i n).subtotal = 0 ∧
      (save_order_from_ifood {} m i n).delivery_fee = 0 ∧
      (save_order_from_ifood {} m i n).discount = 0 ∧
      (save_order_from_ifood {} m i n).total = 0 ∧
      (save_order_from_ifood {} m i n).status = "PLACED") := by
  constructor
  · simp [process_ifood_event, hfresh, htype, hnf, eventsUpdateOne]
  · intro m i n
    refine ⟨rfl, ?_, rfl, rfl, rfl, rfl, rfl, rfl⟩
    show (("" : String).take 8) = ""
    decide

/-- Witness for C10: the concrete not-found PLACED event `N1` appends the
degenerate order document to an empty store. -/
theorem placed_not_found_creates_stub_witness :
    (process_ifood_event (fun _ => DetailsResult.notFound) "M1" "nd" "nl" 3
      evPlacedNF {}).orders =
      ({} : DB).orders ++
        [save_order_from_ifood {} (evPlacedNF.merchantId.getD "M1") "nl" 3] :=
  (placed_not_found_creates_stub (fun _ => DetailsResult.notFound) "M1" "nd" "nl" 3
    evPlacedNF {} (by decide) (by decide) rfl).1

/-! ## C4: token validity and reuse within the safety margin -/

/-- C4: the stored token counts as valid exactly when it is present
(non-empty) and the clock is more than the 5-minute safety margin before
its expiry; a valid token is returned from cache with no network call and
no state change; and after a fresh issuance from an invalid state, a second
authorization within 60 seconds reuses the cache, so the two calls perform
exactly one token-endpoint call in total. -/
theorem token_reuse_within_margin :
    (∀ (now : Nat) (s : TokenState),
      is_token_valid now s = true ↔
        ∃ t e, s.access_token = some t ∧ t ≠ "" ∧
               s.token_expires_at = some e ∧ now + 300 < e) ∧
    (∀ (net : AuthNet) (now : Nat) (s : TokenState),
      is_token_valid now s = true →
        authenticate true net now false s =
          { result := .ok true, state := s, networkCalls := 0 }) ∧
    (∀ (t0 d : Nat) (tok : String) (s0 : TokenState),
      d ≤ 60 → tok ≠ "" → is_token_valid t0 s0 = false →
      (authenticate true (.ok (some tok) none) t0 false s0).networkCalls = 1 ∧
      (authenticate true (.ok (some tok) none) (t0 + d) false
        (authenticate true (.ok (some tok) none) t0 false s0).state).networkCalls = 0 ∧
      (authenticate true (.ok (some tok) none) (t0 + d) false
        (authenticate true (.ok (some tok) none) t0 false s0).state).result = .ok true) := by
  refine ⟨?_, ?_, ?_⟩
  · intro now s
    constructor
    · intro h
      cases ha : s.access_token with
      | none => simp [is_token_valid, ha] at h
      | some t =>
        cases he : s.token_expires_at with
        | none => simp [is_token_valid, ha, he] at h
        | some e =>
          simp only [is_token_valid, ha, he, Bool.and_eq_true, decide_eq_true_eq] at h
          exact ⟨t, e, rfl, h.1, rfl, h.2⟩
    · rintro ⟨t, e, ha, ht, he, hlt⟩
      simp [is_token_valid, ha, he, ht, hlt]
  · intro net now s h
    simp [authenticate, h]
  · intro t0 d tok s0 hd htok h0
    have hstate : authenticate true (.ok (some tok) none) t0 false s0 =
        { result := .ok false
          state := { access_token := some tok, token_expires_at := some (t0 + 10800),
                     token_expires_in := some 10800 }
          networkCalls := 1 } := by
      simp [authenticate, h0]
    have hvalid : is_token_valid (t0 + d)
        { access_token := some tok, token_expires_at := some (t0 + 10800),
          token_expires_in := some 10800 } = true := by
      simp only [is_token_valid, Bool.and_eq_true, decide_eq_true_eq]
      exact ⟨htok, by omega⟩
    rw [hstate]
    refine ⟨rfl, ?_, ?_⟩ <;> simp [authenticate, hvalid]

/-- Witness for C4: from an empty credential state, issuance at time 0 and
a second authorization at time 60 perform one token call and then zero. -/
theorem token_reuse_within_margin_witness :
    (authenticate true (.ok (some "T") none) 0 false {}).networkCalls = 1 ∧
    (authenticate true (.ok (some "T") none) (0 + 60) false
      (authenticate true (.ok (some "T") none) 0 false {}).state).networkCalls = 0 ∧
    (authenticate true (.ok (some "T") none) (0 + 60) false
      (authenticate true (.ok (some "T") none) 0 false {}).state).result = .ok true :=
  token_reuse_within_margin.2.2 0 60 "T" {} (by decide) (by decide) (by decide)

/-! ## C5: one forced re-authentication and one retry on a 401 -/

/-- C5: with a valid cached token, an operation whose first attempt is
rejected with 401 performs exactly one forced token refresh and one retry:
if the retry succeeds the operation returns its payload after 2 operation
HTTP calls and 1 token call; if the retry is rejected again the operation
raises, still after 2 operation calls and 1 token call, with no further
retry. -/
theorem auth_retry_once (now : Nat) (s : TokenState) (tok : String)
    (b1 b2 b3 : List String) (l : List String)
    (hval : is_token_valid now s = true) (htok : tok ≠ "") :
    ((get_merchants true (.ok (some tok) none) now s ⟨401, b1⟩ ⟨200, l⟩).result = .ok l ∧
     (get_merchants true (.ok (some tok) none) now s ⟨401, b1⟩ ⟨200, l⟩).opCalls = 2 ∧
     (get_merchants true (.ok (some tok) none) now s ⟨401, b1⟩ ⟨200, l⟩).tokenCalls = 1) ∧
    ((∃ m, (get_merchants true (.ok (some tok) none) now s ⟨401, b2⟩ ⟨401, b3⟩).result =
       .error m) ∧
     (get_merchants true (.ok (some tok) none) now s ⟨401, b2⟩ ⟨401, b3⟩).opCalls = 2 ∧
     (get_merchants true (.ok (some tok) none) now s ⟨401, b2⟩ ⟨401, b3⟩).tokenCalls = 1) := by
  have ha1 : authenticate true (.ok (some tok) none) now false s =
      { result := .ok true, state := s, networkCalls := 0 } := by
    simp [authenticate, hval]
  have ha2 : authenticate true (.ok (some tok) none) now true s =
      { result := .ok false
        state := { access_token := some tok, token_expires_at := some (now + 10800),
                   token_expires_in := some 10800 }
        networkCalls := 1 } := by
    simp [authenticate]
  have hval2 : is_token_valid now
      { access_token := some tok, token_expires_at := some (now + 10800),
        token_expires_in := some 10800 } = true := by
    simp only [is_token_valid, Bool.and_eq_true, decide_eq_true_eq]
    exact ⟨htok, by omega⟩
  have ha3 : authenticate true (.ok (some tok) none) now false
      { access_token := some tok, token_expires_at := some (now + 10800),
        token_expires_in := some 10800 } =
      { result := .ok true
        state := { access_token := some tok, token_expires_at := some (now + 10800),
                   token_expires_in := some 10800 }
        networkCalls := 0 } := by
    simp [authenticate, hval2]
  constructor
  · refine ⟨?_, ?_, ?_⟩ <;>
      simp [get_merchants, ha1, ha2, ha3, handle_response]
  · refine ⟨⟨"http error " ++ toString 401, ?_⟩, ?_, ?_⟩ <;>
      simp [get_merchants, ha1, ha2, ha3, handle_response]

/-- Witness for C5: a concrete valid token state at time 0 shows the
retry-once accounting (2 operation calls, 1 token call) on both the
retry-succeeds and retry-rejected runs. -/
theorem auth_retry_once_witness :
    ((get_merchants true (.ok (some "T") none) 0
        { access_token := some "T", token_expires_at := some 10000,
          token_expires_in := some 10800 }
        ⟨401, []⟩ ⟨200, ["m1"]⟩).result = .ok ["m1"] ∧
     (get_merchants true (.ok (some "T") none) 0
        { access_token := some "T", token_expires_at := some 10000,
          token_expires_in := some 10800 }
        ⟨401, []⟩ ⟨200, ["m1"]⟩).opCalls = 2 ∧
     (get_merchants true (.ok (some "T") none) 0
        { access_token := some "T", token_expires_at := some 10000,
          token_expires_in := some 10800 }
        ⟨401, []⟩ ⟨200, ["m1"]⟩).tokenCalls = 1) ∧
    ((∃ m, (get_merchants true (.ok (some "T") none) 0
        { access_token := some "T", token_expires_at := some 10000,
          token_expires_in := some 10800 }
        ⟨401, []⟩ ⟨401, []⟩).result = .error m) ∧
     (get_merchants true (.ok (some "T") none) 0
        { access_token := some "T", token_expires_at := some 10000,
          token_expires_in := some 10800 }
        ⟨401, []⟩ ⟨401, []⟩).opCalls = 2 ∧
     (get_merchants true (.ok (some "T") none) 0
        { access_token := some "T", token_expires_at := some 10000,
          token_expires_in := some 10800 }
        ⟨401, []⟩ ⟨401, []⟩).tokenCalls = 1) :=
  auth_retry_once 0
    { access_token := some "T", token_expires_at := some 10000,
      token_expires_in := some 10800 }
    "T" [] [] [] ["m1"] (by decide) (by decide)

/-! ## C7: a 204 poll response is a success with zero events -/

/-- C7: with a usable authorization, a poll whose event request answers 204
returns the empty event list without raising, and the cycle built on that
fetch records the poll time, an event count of zero and a cleared error
counter (no error increment); nothing is processed or acknowledged. -/
theorem empty_poll_success (net : AuthNet) (now : Nat) (s : TokenState)
    (b1 : List IFoodEvent) (r2 : Resp (List IFoodEvent))
    (hval : is_token_valid now s = true) :
    (poll_events true net now s ⟨204, b1⟩ r2).result = .ok [] ∧
    (∀ (sf : IFoodEvent → Bool) (det : Option String → DetailsResult)
        (cfg : String) (ackF : Bool) (db : DB) (st : PollingStatusDoc),
      (polling_cycle sf det cfg now ackF
        ((poll_events true net now s ⟨204, b1⟩ r2).result) db st).status.last_poll_at =
          some now ∧
      (polling_cycle sf det cfg now ackF
        ((poll_events true net now s ⟨204, b1⟩ r2).result) db st).status.events_received = 0 ∧
      (polling_cycle sf det cfg now ackF
        ((poll_events true net now s ⟨204, b1⟩ r2).result) db st).status.errors_count = 0 ∧
      (polling_cycle sf det cfg now ackF
        ((poll_events true net now s ⟨204, b1⟩ r2).result) db st).ackAttempted = false ∧
      (polling_cycle sf det cfg now ackF
        ((poll_events true net now s ⟨204, b1⟩ r2).result) db st).db = db) := by
  have ha1 : authenticate true net now false s =
      { result := .ok true, state := s, networkCalls := 0 } := by
    simp [authenticate, hval]
  have hfetch : (poll_events true net now s ⟨204, b1⟩ r2).result = .ok [] := by
    simp [poll_events, ha1]
  refine ⟨hfetch, ?_⟩
  intro sf det cfg ackF db st
  rw [hfetch]
  refine ⟨?_, ?_, ?_, ?_, ?_⟩ <;>
    simp [polling_cycle, runEvents, ackIdsOf, applyCycleStatus]

/-- Witness for C7: concrete valid token state, 204 response, empty cycle
outcome. -/
theorem empty_poll_success_witness :
    (poll_events true (.ok (some "T") none) 0
      { access_token := some "T", token_expires_at := some 10000,
        token_expires_in := some 10800 }
      ⟨204, []⟩ ⟨200, []⟩).result = .ok [] ∧
    (∀ (sf : IFoodEvent → Bool) (det : Option String → DetailsResult)
        (cfg : String) (ackF : Bool) (db : DB) (st : PollingStatusDoc),
      (polling_cycle sf det cfg 0 ackF
        ((poll_events true (.ok (some "T") none) 0
          { access_token := some "T", token_expires_at := some 10000,
            token_expires_in := some 10800 }
          ⟨204, []⟩ ⟨200, []⟩).result) db st).status.last_poll_at = some 0 ∧
      (polling_cycle sf det cfg 0 ackF
        ((poll_events true (.ok (some "T") none) 0
          { access_token := some "T", token_expires_at := some 10000,
            token_expires_in := some 10800 }
          ⟨204, []⟩ ⟨200, []⟩).result) db st).status.events_received = 0 ∧
      (polling_cycle sf det cfg 0 ackF
        ((poll_events true (.ok (some "T") none) 0
          { access_token := some "T", token_expires_at := some 10000,
            token_expires_in := some 10800 }
          ⟨204, []⟩ ⟨200, []⟩).result) db st).status.errors_count = 0 ∧
      (polling_cycle sf det cfg 0 ackF
        ((poll_events true (.ok (some "T") none) 0
          { access_token := some "T", token_expires_at := some 10000,
            token_expires_in := some 10800 }
          ⟨204, []⟩ ⟨200, []⟩).result) db st).ackAttempted = false ∧
      (polling_cycle sf det cfg 0 ackF
        ((poll_events true (.ok (some "T") none) 0
          { access_token := some "T", token_expires_at := some 10000,
            token_expires_in := some 10800 }
          ⟨204, []⟩ ⟨200, []⟩).result) db st).db = db) :=
  empty_poll_success (.ok (some "T") none) 0
    { access_token := some "T", token_expires_at := some 10000,
      token_expires_in := some 10800 } [] ⟨200, []⟩ (by decide)

/-! ## C6: a per-event failure aborts the whole cycle -/

theorem runEvents_no_fail (sf : IFoodEvent → Bool)
    (det : Option String → DetailsResult) (cfg : String) (now : Nat) :
    ∀ (evs : List IFoodEvent) (i : Nat) (db : DB),
      (∀ e ∈ evs, sf e = false) →
      (runEvents sf det cfg now evs i db).2.1 = evs.length ∧
      (runEvents sf det cfg now evs i db).2.2 = false := by
  intro evs
  induction evs with
  | nil => intro i db _; exact ⟨rfl, rfl⟩
  | cons ev rest ih =>
    intro i db h
    have hev : sf ev = false := h ev (List.mem_cons_self ev rest)
    have hrest := ih (i + 1)
      (process_ifood_event det cfg ("evdoc" ++ toString i) ("orddoc" ++ toString i) now ev db)
      (fun e he => h e (List.mem_cons_of_mem ev he))
    simp only [runEvents, hev, Bool.false_eq_true, if_false]
    exact ⟨by rw [hrest.1]; rfl, hrest.2⟩

theorem runEvents_abort (sf : IFoodEvent → Bool)
    (det : Option String → DetailsResult) (cfg : String) (now : Nat)
    (bad : IFoodEvent) (post : List IFoodEvent) (hbad : sf bad = true) :
    ∀ (pre : List IFoodEvent) (i : Nat) (db : DB),
      (∀ e ∈ pre, sf e = false) →
      (runEvents sf det cfg now (pre ++ bad :: post) i db).2.1 = pre.length ∧
      (runEvents sf det cfg now (pre ++ bad :: post) i db).2.2 = true := by
  intro pre
  induction pre with
  | nil =>
    intro i db _
    simp [runEvents, hbad]
  | cons ev rest ih =>
    intro i db h
    have hev : sf ev = false := h ev (List.mem_cons_self ev rest)
    have hrest := ih (i + 1)
      (process_ifood_event det cfg ("evdoc" ++ toString i) ("orddoc" ++ toString i) now ev db)
      (fun e he => h e (List.mem_cons_of_mem ev he))
    simp only [List.cons_append, runEvents, hev, Bool.false_eq_true, if_false,
      List.append_eq]
    exact ⟨by rw [hrest.1]; rfl, hrest.2⟩

/-- A CONFIRMED event with id `G1` (processes cleanly). -/
def c6Good1 : IFoodEvent :=
  { id := some "G1", code := some "CONFIRMED", orderId := some "O1" }

/-- A CONFIRMED event with id `F2` whose store write raises. -/
def c6Bad : IFoodEvent :=
  { id := some "F2", code := some "CONFIRMED", orderId := some "O1" }

/-- A CONFIRMED event with id `G3`, queued after the failing one. -/
def c6Good2 : IFoodEvent :=
  { id := some "G3", code := some "CONFIRMED", orderId := some "O1" }

/-- Store-failure oracle of the counterexample: processing raises exactly
on event `F2`. -/
def c6Fails : IFoodEvent → Bool := fun e => decide (e.id = some "F2")

/-- The cycle of the counterexample: batch `G1, F2, G3` fetched
successfully, processing of `F2` raises. -/
def c6Cycle : CycleOutcome :=
  polling_cycle c6Fails detailsO1 "M1" 5 false (.ok [c6Good1, c6Bad, c6Good2])
    {} { merchant_id := "M1" }

/-- Counterexample to C6: in a cycle with a non-empty batch where one event
raises during processing, the events after it are never handed to the
processor (no event record for `G3` exists) and the batch acknowledgment is
not attempted; the cycle falls into the error branch instead. -/
theorem event_failure_aborts_cycle :
    c6Cycle.completed = 1 ∧
    c6Cycle.ackAttempted = false ∧
    (c6Cycle.db.events.filter (fun r => decide (r.event_id = some "G3"))).length = 0 ∧
    c6Cycle.status.errors_count = 1 := by
  refine ⟨?_, ?_, ?_, ?_⟩ <;> decide

/-- C6 (amended): the acknowledgment is attempted after all events only in
cycles where no event raises while being processed; any exception escaping
`process_ifood_event` aborts the cycle — the events after the failing one
are not processed, the acknowledgment is not attempted, and the error
counter is incremented. -/
theorem ack_only_in_clean_cycles (sf : IFoodEvent → Bool)
    (det : Option String → DetailsResult) (cfg : String) (now : Nat)
    (db : DB) (st : PollingStatusDoc) :
    (∀ evs : List IFoodEvent, (∀ e ∈ evs, sf e = false) →
      (polling_cycle sf det cfg now false (.ok evs) db st).completed = evs.length ∧
      (polling_cycle sf det cfg now false (.ok evs) db st).ackAttempted =
        decide (ackIdsOf evs ≠ []) ∧
      (polling_cycle sf det cfg now false (.ok evs) db st).status =
        applyCycleStatus now (.success evs.length) st) ∧
    (∀ (pre : List IFoodEvent) (bad : IFoodEvent) (post : List IFoodEvent),
      (∀ e ∈ pre, sf e = false) → sf bad = true →
      (polling_cycle sf det cfg now false (.ok (pre ++ bad :: post)) db st).completed =
        pre.length ∧
      (polling_cycle sf det cfg now false (.ok (pre ++ bad :: post)) db st).ackAttempted =
        false ∧
      (polling_cycle sf det cfg now false (.ok (pre ++ bad :: post)) db st).status =
        applyCycleStatus now (.failure "event processing raised") st) := by
  constructor
  · intro evs h
    have hr := runEvents_no_fail sf det cfg now evs 0 db h
    by_cases hids : ackIdsOf evs = []
    · simp [polling_cycle, hr.1, hr.2, hids]
    · simp [polling_cycle, hr.1, hr.2, hids]
  · intro pre bad post hpre hbad
    have hr := runEvents_abort sf det cfg now bad post hbad pre 0 db hpre
    simp [polling_cycle, hr.1, hr.2]

/-- Witness for the amended C6: the clean two-event batch `G1, G3` is fully
processed with the acknowledgment attempted, concretely. -/
theorem ack_only_in_clean_cycles_witness :
    (polling_cycle c6Fails detailsO1 "M1" 5 false (.ok [c6Good1, c6Good2])
      {} { merchant_id := "M1" }).completed = [c6Good1, c6Good2].length ∧
    (polling_cycle c6Fails detailsO1 "M1" 5 false (.ok [c6Good1, c6Good2])
      {} { merchant_id := "M1" }).ackAttempted =
      decide (ackIdsOf [c6Good1, c6Good2] ≠ []) ∧
    (polling_cycle c6Fails detailsO1 "M1" 5 false (.ok [c6Good1, c6Good2])
      {} { merchant_id := "M1" }).status =
      applyCycleStatus 5 (.success [c6Good1, c6Good2].length) { merchant_id := "M1" } :=
  (ack_only_in_clean_cycles c6Fails detailsO1 "M1" 5 {} { merchant_id := "M1" }).1
    [c6Good1, c6Good2] (by decide)

/-! ## C8: 404 handling across gateway operations -/

/-- Counterexample to C8: `confirm_order` does not map a not-found remote
response to a typed result — a 404 goes through `raise_for_status` and the
operation raises past its boundary. -/
theorem confirm_404_raises :
    (client_confirm_order true (.ok (some "T") none) 0
      { access_token := some "T", token_expires_at := some 10000,
        token_expires_in := some 10800 }
      "O9" ⟨404, ()⟩ ⟨404, ()⟩).result =
      .error ("http error " ++ toString 404) := by
  rfl

/-- C8 (amended): only the read operations type the not-found outcome —
`get_order_details` and `get_order_tracking` (and the identically shaped
virtual-bag lookup) turn a 404 into a typed not-found result instead of
raising — while the command operations such as `confirm_order` (and the
other write operations, which contain no 404 check) raise on a 404. -/
theorem not_found_typing_split (now : Nat) (s : TokenState) (net : AuthNet)
    (oid : String) (p : OrderPayload) (r2p : Resp OrderPayload)
    (t : String) (r2t : Resp String) (r2c : Resp Unit)
    (hval : is_token_valid now s = true) :
    (client_get_order_details true net now s oid ⟨404, p⟩ r2p).result =
      .ok (.notFound oid) ∧
    (client_get_order_tracking true net now s oid ⟨404, t⟩ r2t).result =
      .ok (.notFound oid) ∧
    (client_confirm_order true net now s oid ⟨404, ()⟩ r2c).result =
      .error ("http error " ++ toString 404) := by
  have ha1 : authenticate true net now false s =
      { result := .ok true, state := s, networkCalls := 0 } := by
    simp [authenticate, hval]
  refine ⟨?_, ?_, ?_⟩ <;>
    simp [client_get_order_details, client_get_order_tracking, client_confirm_order,
      request_with_auth_retry, ha1]

/-- Witness for the amended C8: concrete 404 responses on the three
operations show the typed/raising split. -/
theorem not_found_typing_split_witness :
    (client_get_order_details true (.ok (some "T") none) 0
      { access_token := some "T", token_expires_at := some 10000,
        token_expires_in := some 10800 } "O9" ⟨404, {}⟩ ⟨200, {}⟩).result =
      .ok (.notFound "O9") ∧
    (client_get_order_tracking true (.ok (some "T") none) 0
      { access_token := some "T", token_expires_at := some 10000,
        token_expires_in := some 10800 } "O9" ⟨404, ""⟩ ⟨200, ""⟩).result =
      .ok (.notFound "O9") ∧
    (client_confirm_order true (.ok (some "T") none) 0
      { access_token := some "T", token_expires_at := some 10000,
        token_expires_in := some 10800 } "O9" ⟨404, ()⟩ ⟨200, ()⟩).result =
      .error ("http error " ++ toString 404) :=
  not_found_typing_split 0
    { access_token := some "T", token_expires_at := some 10000,
      token_expires_in := some 10800 }
    (.ok (some "T") none) "O9" {} ⟨200, {}⟩ "" ⟨200, ""⟩ ⟨200, ()⟩ (by decide)

/-! ## C9: concurrent token refresh is not single-flighted -/

/-- Both callers at the start of `authenticate` over an empty (hence
invalid) shared credential state. -/
def c9Init : TwoCallers := { shared := {} }

/-- Counterexample to C9: under the interleaving in which both callers pass
the `_is_token_valid` check before either token response lands, each caller
issues its own token-exchange call — two in total, not one.  `authenticate`
holds no lock, so nothing rules this schedule out. -/
theorem concurrent_refresh_two_calls :
    (runSched (.ok (some "T") none) 0 [true, false, true, false] c9Init).tokenCalls = 2 ∧
    (runSched (.ok (some "T") none) 0 [true, false, true, false] c9Init).caller1 =
      .finished ∧
    (runSched (.ok (some "T") none) 0 [true, false, true, false] c9Init).caller2 =
      .finished := by
  refine ⟨?_, ?_, ?_⟩ <;> decide

/-- Number of token calls a caller can still issue: one before its
validity check, none afterwards. -/
def phasePending : CallerPhase → Nat
  | .start => 1
  | _ => 0

/-- Token calls made so far plus token calls the callers can still make. -/
def callBudget (c : TwoCallers) : Nat :=
  c.tokenCalls + phasePending c.caller1 + phasePending c.caller2

theorem stepCaller_budget (net : AuthNet) (now : Nat) (ph : CallerPhase)
    (s : TokenState) :
    (stepCaller net now ph s).2.2 + phasePending (stepCaller net now ph s).1 ≤
      phasePending ph := by
  cases ph with
  | start =>
    by_cases h : is_token_valid now s = true
    · simp [stepCaller, h, phasePending]
    · simp only [Bool.not_eq_true] at h
      simp [stepCaller, h, phasePending]
  | waiting => cases net <;> simp [stepCaller, phasePending]
  | finished => simp [stepCaller, phasePending]

theorem runSched_budget (net : AuthNet) (now : Nat) :
    ∀ (sched : List Bool) (c : TwoCallers),
      callBudget (runSched net now sched c) ≤ callBudget c := by
  intro sched
  induction sched with
  | nil => intro c; exact Nat.le_refl _
  | cons pick rest ih =>
    intro c
    rw [runSched]
    by_cases hp : pick = true
    · subst hp
      refine Nat.le_trans (ih _) ?_
      simp only [if_true, callBudget]
      have := stepCaller_budget net now c.caller1 c.shared
      omega
    · simp only [Bool.not_eq_true] at hp
      subst hp
      refine Nat.le_trans (ih _) ?_
      simp only [Bool.false_eq_true, if_false, callBudget]
      have := stepCaller_budget net now c.caller2 c.shared
      omega

/-- C9 (amended): `authenticate` has no mutual exclusion, so refreshes are
not single-flighted: with two concurrent callers over an invalid token,
the interleaved schedule issues two token-exchange calls (one per caller)
while the fully serialized schedule issues one — the count depends on the
schedule; each caller issues at most one exchange, so any schedule issues
at most two calls in total. -/
theorem concurrent_refresh_per_caller (net : AuthNet) (now : Nat)
    (sched : List Bool) (hnet : net = .ok (some "T") none) :
    (runSched net now [true, false, true, false] c9Init).tokenCalls = 2 ∧
    (runSched net now [true, true, false] c9Init).tokenCalls = 1 ∧
    (runSched net now sched c9Init).tokenCalls ≤ 2 := by
  subst hnet
  refine ⟨rfl, ?_, ?_⟩
  · have hfresh : is_token_valid now
        { access_token := some "T", token_expires_at := some (now + 10800),
          token_expires_in := some 10800 } = true := by
      simp only [is_token_valid, Bool.and_eq_true, decide_eq_true_eq]
      exact ⟨by decide, by omega⟩
    simp [runSched, stepCaller, c9Init, is_token_valid, hfresh]
  have h := runSched_budget (.ok (some "T") none) now sched c9Init
  have hinit : callBudget c9Init = 2 := by decide
  have hle : (runSched (.ok (some "T") none) now sched c9Init).tokenCalls ≤
      callBudget (runSched (.ok (some "T") none) now sched c9Init) := by
    simp only [callBudget]
    omega
  omega

/-- Witness for the amended C9: the empty schedule instantiates the bound
(and the two concrete schedules) at a closed input. -/
theorem concurrent_refresh_per_caller_witness :
    (runSched (.ok (some "T") none) 3 [true, false, true, false] c9Init).tokenCalls = 2 ∧
    (runSched (.ok (some "T") none) 3 [true, true, false] c9Init).tokenCalls = 1 ∧
    (runSched (.ok (some "T") none) 3 [false, false, true, true] c9Init).tokenCalls ≤ 2 :=
  concurrent_refresh_per_caller (.ok (some "T") none) 3 [false, false, true, true] rfl

end GamaIfood
